import Mathlib

/-!
Verification of the Loan-Calculator repository's core logic against its
specification.  The embedded code is `validateForm` and `calculateSchedule`
from `src/components/loan-calculator.tsx` (the variant in `src/unnamed/part_000`
carries the same two functions verbatim), together with the JavaScript `Date`
month arithmetic (`setMonth` / `setFullYear`) that `calculateSchedule` uses.

Number model: JavaScript numbers are IEEE doubles.  This embedding uses exact
rational arithmetic (`ℚ`) plus an explicit not-a-number value `JsNum.nan`.
For inputs that pass validation (`principal > 0`, `tenure > 0`, `rate ≥ 0`,
`moratorium ≥ 0`) the only non-finite value the engine can produce is the
`0 / 0 = NaN` of the unguarded EMI formula at `rate = 0`, which `JsNum.nan`
models exactly.  `Math.pow` with a non-integer exponent (reachable only when
`tenure × periodsPerYear` is fractional) returns a real number that is
irrational for almost all bases and has no exact rational representation;
this embedding maps that case to `JsNum.nan` as well, and no claim is settled
on the numeric contents of rows built from such an exponent (period counts
and dates do not depend on it).
-/

/-- A JavaScript number as this program can produce it: an exact rational,
or `NaN`. -/
inductive JsNum where
  | nan : JsNum
  | num (q : ℚ) : JsNum
  deriving DecidableEq

/-- JavaScript `+` on numbers: `NaN` propagates. -/
def jsAdd : JsNum → JsNum → JsNum
  | JsNum.num a, JsNum.num b => JsNum.num (a + b)
  | _, _ => JsNum.nan

/-- JavaScript `-` on numbers: `NaN` propagates. -/
def jsSub : JsNum → JsNum → JsNum
  | JsNum.num a, JsNum.num b => JsNum.num (a - b)
  | _, _ => JsNum.nan

/-- JavaScript `*` on numbers: `NaN` propagates. -/
def jsMul : JsNum → JsNum → JsNum
  | JsNum.num a, JsNum.num b => JsNum.num (a * b)
  | _, _ => JsNum.nan

/-- JavaScript `/` on numbers.  A zero denominator yields a non-finite result
(`NaN` for `0 / 0`, which is the only zero-denominator division this program
performs on inputs with `rate ≥ 0`: the EMI denominator `(1+r)^n - 1`
vanishes only when `r = 0`, and then the numerator `p·r·(1+r)^n` vanishes
too).  Non-finite results are modelled as `JsNum.nan`. -/
def jsDiv : JsNum → JsNum → JsNum
  | JsNum.num a, JsNum.num b => if b = 0 then JsNum.nan else JsNum.num (a / b)
  | _, _ => JsNum.nan

/-- JavaScript `Math.max(0, x)`: `Math.max(0, NaN)` is `NaN`. -/
def jsMax0 : JsNum → JsNum
  | JsNum.num a => JsNum.num (max 0 a)
  | JsNum.nan => JsNum.nan

/-- JavaScript `<=` on numbers: every comparison involving `NaN` is `false`. -/
def jsLe : JsNum → JsNum → Bool
  | JsNum.num a, JsNum.num b => decide (a ≤ b)
  | _, _ => false

/-- JavaScript `<` on numbers: every comparison involving `NaN` is `false`. -/
def jsLt : JsNum → JsNum → Bool
  | JsNum.num a, JsNum.num b => decide (a < b)
  | _, _ => false

/-- JavaScript `Math.pow b e` as used in the EMI formula.  An exponent that
is a non-negative integer gives the exact rational power; any other exponent
gives a real number with no exact rational representation in general and is
modelled as `JsNum.nan` (see the module docstring; no claim is settled on
row values produced through this case). -/
def jsPow (b e : ℚ) : JsNum :=
  if 0 ≤ e ∧ e.den = 1 then JsNum.num (b ^ e.num.toNat) else JsNum.nan

/-- A calendar date as JavaScript `Date` exposes it: `month` is 0-indexed
(January = 0, December = 11), `day` is the 1-based day of month. -/
structure JsDate where
  year : ℤ
  month : ℤ
  day : ℤ
  deriving DecidableEq

/-- Gregorian leap-year rule, as used by JavaScript `Date`. -/
def isLeapYear (y : ℤ) : Bool :=
  (y % 4 == 0 && y % 100 != 0) || y % 400 == 0

/-- Number of days in 0-indexed month `m` of year `y`. -/
def daysInMonth (y m : ℤ) : ℤ :=
  if m = 1 then (if isLeapYear y then 29 else 28)
  else if m = 3 ∨ m = 5 ∨ m = 8 ∨ m = 10 then 30
  else 31

/-- JavaScript `Date.prototype.setMonth`: a month value outside `0..11` is
folded into the year, and a day-of-month exceeding the target month's length
overflows into the following month (`MakeDay` semantics); e.g. Jan 31 with
`setMonth(1)` becomes Feb 31, i.e. Mar 2 in a leap year.  Since the stored
day is at most 31 and every month has at least 28 days, the overflow carries
at most one month. -/
def setMonthNorm (y m day : ℤ) : JsDate :=
  let y1 := y + m / 12
  let m1 := m % 12
  if day ≤ daysInMonth y1 m1 then ⟨y1, m1, day⟩
  else if m1 = 11 then ⟨y1 + 1, 0, day - daysInMonth y1 m1⟩
  else ⟨y1, m1 + 1, day - daysInMonth y1 m1⟩

/-- `currentDate.setMonth(currentDate.getMonth() + k)`, the month-stepping
idiom of `calculateSchedule`. -/
def addMonthsJs (k : ℤ) (d : JsDate) : JsDate :=
  setMonthNorm d.year (d.month + k) d.day

/-- `currentDate.setFullYear(currentDate.getFullYear() + 1)`: keeps month and
day; a Feb 29 day overflows into Mar 1 in a non-leap target year, which for a
month already in `0..11` is exactly what `setMonthNorm` performs. -/
def setFullYearAdd1 (d : JsDate) : JsDate :=
  setMonthNorm (d.year + 1) d.month d.day

/-- The per-iteration date increment of `calculateSchedule` (lines 156–165):
`setMonth(+1)`, `setMonth(+3)`, `setMonth(+6)`, or `setFullYear(+1)` for the
final `else` branch. -/
def advanceDate (frequency : String) (d : JsDate) : JsDate :=
  if frequency = "monthly" then addMonthsJs 1 d
  else if frequency = "quarterly" then addMonthsJs 3 d
  else if frequency = "semi-annually" then addMonthsJs 6 d
  else setFullYearAdd1 d

/-- The raw form fields after JavaScript `Number(...)` conversion, which is
how `validateForm` and `calculateSchedule` read them.  `Number` of a
non-numeric string such as `"abc"` is `NaN`, modelled as `JsNum.nan`. -/
structure FormData where
  principal : JsNum
  tenure : JsNum
  rate : JsNum
  moratorium : JsNum
  deriving DecidableEq

/-- The `ValidationErrors` object of the component: one optional message per
validated field (the frequency select has no entry). -/
structure ValidationErrors where
  principal : Option String
  tenure : Option String
  rate : Option String
  moratorium : Option String
  deriving DecidableEq

/-- The error mapping built by `validateForm` (lines 64–78). -/
def validateFormErrors (data : FormData) : ValidationErrors where
  principal :=
    if jsLe data.principal (JsNum.num 0) then some "Principal amount must be greater than 0" else none
  tenure :=
    if jsLe data.tenure (JsNum.num 0) then some "Tenure must be greater than 0" else none
  rate :=
    if jsLt data.rate (JsNum.num 0) then some "Interest rate cannot be negative" else none
  moratorium :=
    if jsLt data.moratorium (JsNum.num 0) then some "Moratorium period cannot be negative" else none

/-- `Object.keys(newErrors).length`: the number of fields carrying an error. -/
def errorKeyCount (e : ValidationErrors) : ℕ :=
  (if e.principal.isSome then 1 else 0) + (if e.tenure.isSome then 1 else 0) +
    (if e.rate.isSome then 1 else 0) + (if e.moratorium.isSome then 1 else 0)

/-- `validateForm`'s return value, `Object.keys(newErrors).length === 0`. -/
def validateForm (data : FormData) : Bool :=
  errorKeyCount (validateFormErrors data) == 0

/-- One row of the repayment schedule (the `ScheduleRow` interface):
`balance` is the outstanding balance after this payment, clamped by
`Math.max(0, balance)` when stored. -/
structure ScheduleRow where
  date : JsDate
  payment : JsNum
  interest : JsNum
  principal : JsNum
  balance : JsNum
  deriving DecidableEq

/-- The body of the `for (let i = 0; i < totalPeriods; i++)` loop
(lines 143–166), with the iteration count made explicit as fuel.  Each
iteration computes `interest = balance * periodicRate`,
`principal = emi - interest`, `balance = balance - principal`, pushes the row
(with the stored balance clamped through `Math.max(0, ·)`), and advances the
date by the frequency's step. -/
def buildRows : ℕ → String → ℚ → JsNum → JsNum → JsDate → List ScheduleRow
  | 0, _, _, _, _, _ => []
  | Nat.succ n, frequency, periodicRate, emi, balance, currentDate =>
    let interest := jsMul balance (JsNum.num periodicRate)
    let princ := jsSub emi interest
    let newBalance := jsSub balance princ
    { date := currentDate
      payment := emi
      interest := interest
      principal := princ
      balance := jsMax0 newBalance } ::
      buildRows n frequency periodicRate emi newBalance (advanceDate frequency currentDate)

/-- The `periodsPerYear` lookup object of lines 116–121: an unrecognized
frequency string finds no entry. -/
def periodsPerYearTable (frequency : String) : Option ℕ :=
  if frequency = "monthly" then some 12
  else if frequency = "quarterly" then some 4
  else if frequency = "semi-annually" then some 2
  else if frequency = "annually" then some 1
  else none

/-- The amortization engine `calculateSchedule` (lines 99–170), on inputs
already converted from the form strings.  A frequency with no table entry
makes the function return early with no schedule (lines 123–126).  The loop
`for (let i = 0; i < totalPeriods; i++)` executes `⌈totalPeriods⌉` times
(clamped at 0) since `i` ranges over the naturals.  The moratorium is applied
up front via `currentDate.setMonth(currentDate.getMonth() + moratorium)`;
`moratorium` is an integer per the data model (JavaScript `setMonth`
truncates a fractional argument). -/
def calculateSchedule (principal tenure rate : ℚ) (frequency : String)
    (moratorium : ℤ) (startDate : JsDate) : Option (List ScheduleRow) :=
  match periodsPerYearTable frequency with
  | none => none
  | some ppy =>
    let totalPeriods : ℚ := tenure * ppy
    let periodicRate : ℚ := rate / 100 / ppy
    let emi : JsNum :=
      jsDiv (jsMul (JsNum.num (principal * periodicRate)) (jsPow (1 + periodicRate) totalPeriods))
        (jsSub (jsPow (1 + periodicRate) totalPeriods) (JsNum.num 1))
    some (buildRows (Int.toNat ⌈totalPeriods⌉) frequency periodicRate emi
      (JsNum.num principal) (addMonthsJs moratorium startDate))

/-- The pure balance recurrence of one loop iteration on finite values:
`balance - (emi - balance * periodicRate)`. -/
def nextBal (r e q : ℚ) : ℚ :=
  q - (e - q * r)

/-- The four numeric fields of a row (everything except the date). -/
def rowNumerics (row : ScheduleRow) : JsNum × JsNum × JsNum × JsNum :=
  (row.payment, row.interest, row.principal, row.balance)

/-- The stream of payment dates the loop visits: the current date, then the
dates reached by repeatedly applying the frequency's increment. -/
def datesFrom : ℕ → String → JsDate → List JsDate
  | 0, _, _ => []
  | Nat.succ n, frequency, d => d :: datesFrom n frequency (advanceDate frequency d)

/-- Overflow-free month addition: add `k` to the month index, folding into
the year, keeping the day.  On dates whose day is at most 28 this agrees
with the JavaScript `setMonth` idiom (`addMonthsJs`), since every month has
at least 28 days. -/
def cleanShift (k : ℤ) (d : JsDate) : JsDate :=
  ⟨d.year + (d.month + k) / 12, (d.month + k) % 12, d.day⟩

/-- Months advanced per period by the date-increment branches of the loop:
1, 3, 6, or 12 (the `else` branch adds one year). -/
def advStep (frequency : String) : ℤ :=
  if frequency = "monthly" then 1
  else if frequency = "quarterly" then 3
  else if frequency = "semi-annually" then 6
  else 12

/-- The schedule of `calculateSchedule 100 1 50 "annually" 0 ⟨2024, 0, 1⟩`:
one annual payment of 150 = 100·(1/2)·(3/2)/((3/2)−1). -/
def witnessRowsA : List ScheduleRow :=
  [⟨⟨2024, 0, 1⟩, JsNum.num 150, JsNum.num 50, JsNum.num 100, JsNum.num 0⟩]

/-- The schedule of `calculateSchedule 200 1 100 "annually" 0 ⟨2024, 0, 1⟩`:
one annual payment of 400 = 200·1·2/(2−1). -/
def witnessRowsB : List ScheduleRow :=
  [⟨⟨2024, 0, 1⟩, JsNum.num 400, JsNum.num 200, JsNum.num 200, JsNum.num 0⟩]

/-! ### Basic lemmas about the JavaScript number model -/

@[simp]
theorem jsAdd_nan_right (x : JsNum) : jsAdd x JsNum.nan = JsNum.nan := by
  cases x <;> rfl

@[simp]
theorem jsSub_nan_left (x : JsNum) : jsSub JsNum.nan x = JsNum.nan := rfl

@[simp]
theorem jsSub_nan_right (x : JsNum) : jsSub x JsNum.nan = JsNum.nan := by
  cases x <;> rfl

@[simp]
theorem jsMul_nan_right (x : JsNum) : jsMul x JsNum.nan = JsNum.nan := by
  cases x <;> rfl

@[simp]
theorem jsDiv_nan_left (x : JsNum) : jsDiv JsNum.nan x = JsNum.nan := rfl

/-! ### Shape lemmas about the schedule loop -/

theorem buildRows_length (f : String) (r : ℚ) (e : JsNum) :
    ∀ (n : ℕ) (b : JsNum) (d : JsDate), (buildRows n f r e b d).length = n := by
  intro n
  induction n with
  | zero => intro b d; rfl
  | succ n ih => intro b d; simpa [buildRows] using ih _ _

theorem calculateSchedule_eq_some (p t r : ℚ) (f : String) (m : ℤ) (d : JsDate) (ppy : ℕ)
    (htab : periodsPerYearTable f = some ppy) :
    calculateSchedule p t r f m d
      = some (buildRows (Int.toNat ⌈t * (ppy : ℚ)⌉) f (r / 100 / ppy)
          (jsDiv (jsMul (JsNum.num (p * (r / 100 / ppy))) (jsPow (1 + r / 100 / ppy) (t * ppy)))
            (jsSub (jsPow (1 + r / 100 / ppy) (t * ppy)) (JsNum.num 1)))
          (JsNum.num p) (addMonthsJs m d)) := by
  unfold calculateSchedule
  rw [htab]

theorem buildRows_get_payment (f : String) (r : ℚ) (e : JsNum) :
    ∀ (n i : ℕ) (b : JsNum) (d : JsDate) (h : i < (buildRows n f r e b d).length),
      ((buildRows n f r e b d).get ⟨i, h⟩).payment = e := by
  intro n
  induction n with
  | zero => intro i b d h; simp [buildRows] at h
  | succ n ih =>
    intro i b d h
    cases i with
    | zero => rfl
    | succ i =>
      exact ih i _ _ (by simpa [buildRows_length] using h)

theorem buildRows_get_principal (f : String) (r : ℚ) (e : JsNum) :
    ∀ (n i : ℕ) (b : JsNum) (d : JsDate) (h : i < (buildRows n f r e b d).length),
      ((buildRows n f r e b d).get ⟨i, h⟩).principal
        = jsSub e ((buildRows n f r e b d).get ⟨i, h⟩).interest := by
  intro n
  induction n with
  | zero => intro i b d h; simp [buildRows] at h
  | succ n ih =>
    intro i b d h
    cases i with
    | zero => rfl
    | succ i =>
      exact ih i _ _ (by simpa [buildRows_length] using h)

theorem buildRows_get_balance_nan (f : String) (r : ℚ) :
    ∀ (n i : ℕ) (b : JsNum) (d : JsDate) (h : i < (buildRows n f r JsNum.nan b d).length),
      ((buildRows n f r JsNum.nan b d).get ⟨i, h⟩).balance = JsNum.nan := by
  intro n
  induction n with
  | zero => intro i b d h; simp [buildRows] at h
  | succ n ih =>
    intro i b d h
    cases i with
    | zero => cases b <;> rfl
    | succ i =>
      have hb : jsSub b (jsSub JsNum.nan (jsMul b (JsNum.num r))) = JsNum.nan := by
        cases b <;> rfl
      have := ih i (jsSub b (jsSub JsNum.nan (jsMul b (JsNum.num r))))
        (advanceDate f d) (by simpa [buildRows_length] using h)
      exact this

theorem buildRows_get_balance (f : String) (r e : ℚ) :
    ∀ (n i : ℕ) (q : ℚ) (d : JsDate)
      (h : i < (buildRows n f r (JsNum.num e) (JsNum.num q) d).length),
      ((buildRows n f r (JsNum.num e) (JsNum.num q) d).get ⟨i, h⟩).balance
        = JsNum.num (max 0 ((nextBal r e)^[i + 1] q)) := by
  intro n
  induction n with
  | zero => intro i q d h; simp [buildRows] at h
  | succ n ih =>
    intro i q d h
    cases i with
    | zero =>
      show (jsMax0 (jsSub (JsNum.num q) (jsSub (JsNum.num e) (jsMul (JsNum.num q) (JsNum.num r)))))
        = JsNum.num (max 0 ((nextBal r e)^[1] q))
      simp [jsMax0, jsSub, jsMul, nextBal]
    | succ i =>
      have step : ((nextBal r e)^[i + 1 + 1]) q = ((nextBal r e)^[i + 1]) (nextBal r e q) :=
        Function.iterate_succ_apply (nextBal r e) (i + 1) q
      rw [step]
      exact ih i (nextBal r e q) (advanceDate f d) (by simpa [buildRows_length] using h)

theorem buildRows_get_interest (f : String) (r e : ℚ) :
    ∀ (n i : ℕ) (q : ℚ) (d : JsDate)
      (h : i < (buildRows n f r (JsNum.num e) (JsNum.num q) d).length),
      ((buildRows n f r (JsNum.num e) (JsNum.num q) d).get ⟨i, h⟩).interest
        = JsNum.num ((nextBal r e)^[i] q * r) := by
  intro n
  induction n with
  | zero => intro i q d h; simp [buildRows] at h
  | succ n ih =>
    intro i q d h
    cases i with
    | zero =>
      show jsMul (JsNum.num q) (JsNum.num r) = JsNum.num ((nextBal r e)^[0] q * r)
      simp [jsMul]
    | succ i =>
      have step : ((nextBal r e)^[i + 1]) q = ((nextBal r e)^[i]) (nextBal r e q) :=
        Function.iterate_succ_apply (nextBal r e) i q
      rw [step]
      exact ih i (nextBal r e q) (advanceDate f d) (by simpa [buildRows_length] using h)

/-! ### The balance recurrence on exact values -/

theorem nextBal_le (r e q : ℚ) (h : q * r ≤ e) : nextBal r e q ≤ q := by
  unfold nextBal
  linarith

theorem nextBal_invariant (r e q : ℚ) (hr : 0 ≤ r) (h : q * r ≤ e) :
    nextBal r e q * r ≤ e :=
  le_trans (mul_le_mul_of_nonneg_right (nextBal_le r e q h) hr) h

theorem iterate_nextBal_invariant (r e : ℚ) (hr : 0 ≤ r) (q : ℚ) (h : q * r ≤ e) :
    ∀ i : ℕ, (nextBal r e)^[i] q * r ≤ e := by
  intro i
  induction i with
  | zero => simpa using h
  | succ i ih =>
    rw [Function.iterate_succ_apply']
    exact nextBal_invariant r e _ hr ih

theorem iterate_nextBal_step (r e : ℚ) (hr : 0 ≤ r) (q : ℚ) (h : q * r ≤ e) (i : ℕ) :
    (nextBal r e)^[i + 1] q ≤ (nextBal r e)^[i] q := by
  rw [Function.iterate_succ_apply']
  exact nextBal_le r e _ (iterate_nextBal_invariant r e hr q h i)

theorem buildRows_mono_nonneg_of_num (f : String) (r e : ℚ) (hr : 0 ≤ r)
    (n : ℕ) (q : ℚ) (d : JsDate) (hqe : q * r ≤ e) :
    (∀ (i : ℕ) (h1 : i < (buildRows n f r (JsNum.num e) (JsNum.num q) d).length)
        (h2 : i + 1 < (buildRows n f r (JsNum.num e) (JsNum.num q) d).length) (qa qb : ℚ),
        ((buildRows n f r (JsNum.num e) (JsNum.num q) d).get ⟨i, h1⟩).balance = JsNum.num qa →
        ((buildRows n f r (JsNum.num e) (JsNum.num q) d).get ⟨i + 1, h2⟩).balance = JsNum.num qb →
        qb ≤ qa) ∧
    (∀ (i : ℕ) (h1 : i < (buildRows n f r (JsNum.num e) (JsNum.num q) d).length) (q0 : ℚ),
        ((buildRows n f r (JsNum.num e) (JsNum.num q) d).get ⟨i, h1⟩).balance = JsNum.num q0 →
        0 ≤ q0) := by
  constructor
  · intro i h1 h2 qa qb hqa hqb
    rw [buildRows_get_balance] at hqa hqb
    injection hqa with hqa
    injection hqb with hqb
    rw [← hqa, ← hqb]
    exact max_le_max (le_refl 0) (iterate_nextBal_step r e hr q hqe (i + 1))
  · intro i h1 q0 hq0
    rw [buildRows_get_balance] at hq0
    injection hq0 with hq0
    rw [← hq0]
    exact le_max_left 0 _

theorem buildRows_mono_nonneg_of_nan (f : String) (r : ℚ) (n : ℕ) (b : JsNum) (d : JsDate) :
    (∀ (i : ℕ) (h1 : i < (buildRows n f r JsNum.nan b d).length)
        (h2 : i + 1 < (buildRows n f r JsNum.nan b d).length) (qa qb : ℚ),
        ((buildRows n f r JsNum.nan b d).get ⟨i, h1⟩).balance = JsNum.num qa →
        ((buildRows n f r JsNum.nan b d).get ⟨i + 1, h2⟩).balance = JsNum.num qb →
        qb ≤ qa) ∧
    (∀ (i : ℕ) (h1 : i < (buildRows n f r JsNum.nan b d).length) (q0 : ℚ),
        ((buildRows n f r JsNum.nan b d).get ⟨i, h1⟩).balance = JsNum.num q0 →
        0 ≤ q0) := by
  constructor
  · intro i h1 h2 qa qb hqa hqb
    rw [buildRows_get_balance_nan] at hqa
    cases hqa
  · intro i h1 q0 hq0
    rw [buildRows_get_balance_nan] at hq0
    cases hq0

theorem emi_cases (p pr tp : ℚ) (hp : 0 < p) (hpr : 0 ≤ pr) :
    jsDiv (jsMul (JsNum.num (p * pr)) (jsPow (1 + pr) tp))
        (jsSub (jsPow (1 + pr) tp) (JsNum.num 1)) = JsNum.nan
    ∨ ∃ e : ℚ, jsDiv (jsMul (JsNum.num (p * pr)) (jsPow (1 + pr) tp))
        (jsSub (jsPow (1 + pr) tp) (JsNum.num 1)) = JsNum.num e ∧ p * pr ≤ e := by
  unfold jsPow
  split_ifs with hcond
  · set a : ℚ := (1 + pr) ^ tp.num.toNat with ha
    have h1a : 1 ≤ a := by
      rw [ha]
      induction tp.num.toNat with
      | zero => norm_num
      | succ k ihk => rw [pow_succ]; nlinarith
    by_cases hden : a - 1 = 0
    · left
      simp [jsMul, jsSub, jsDiv, hden]
    · right
      have hapos : 0 < a - 1 := lt_of_le_of_ne (by linarith) (Ne.symm hden)
      refine ⟨p * pr * a / (a - 1), ?_, ?_⟩
      · simp [jsMul, jsSub, jsDiv, hden]
      · have h0 : 0 ≤ p * pr := mul_nonneg hp.le hpr
        have hsplit : p * pr * a / (a - 1) = p * pr + p * pr / (a - 1) := by
          field_simp
          ring
        have hdiv : 0 ≤ p * pr / (a - 1) := div_nonneg h0 hapos.le
        rw [hsplit]
        linarith
  · left
    rfl

/-- Claim C7: for every schedule the engine produces from validated input
(`principal > 0`, `tenure > 0`, `rate ≥ 0`, `moratorium ≥ 0`), the stored
`balance` field ("balanceAfter") is monotonically non-increasing across
consecutive periods and never negative, stated over the finite (non-`NaN`)
balance values the rows carry. -/
theorem balance_monotone_nonneg (principal tenure rate : ℚ) (frequency : String)
    (moratorium : ℤ) (startDate : JsDate) (rows : List ScheduleRow)
    (hp : 0 < principal) (_ht : 0 < tenure) (hr : 0 ≤ rate) (_hm : 0 ≤ moratorium)
    (hcalc : calculateSchedule principal tenure rate frequency moratorium startDate = some rows) :
    (∀ (i : ℕ) (h1 : i < rows.length) (h2 : i + 1 < rows.length) (qa qb : ℚ),
        (rows.get ⟨i, h1⟩).balance = JsNum.num qa →
        (rows.get ⟨i + 1, h2⟩).balance = JsNum.num qb → qb ≤ qa) ∧
    (∀ (i : ℕ) (h1 : i < rows.length) (q : ℚ),
        (rows.get ⟨i, h1⟩).balance = JsNum.num q → 0 ≤ q) := by
  cases htab : periodsPerYearTable frequency with
  | none =>
    unfold calculateSchedule at hcalc
    rw [htab] at hcalc
    simp at hcalc
  | some ppy =>
    rw [calculateSchedule_eq_some _ _ _ _ _ _ _ htab] at hcalc
    injection hcalc with hcalc
    subst hcalc
    have hpr : 0 ≤ rate / 100 / (ppy : ℚ) :=
      div_nonneg (div_nonneg hr (by norm_num)) (Nat.cast_nonneg ppy)
    rcases emi_cases principal (rate / 100 / (ppy : ℚ)) (tenure * ppy) hp hpr with
      hnan | ⟨e, he, hbound⟩
    · rw [hnan]
      exact buildRows_mono_nonneg_of_nan _ _ _ _ _
    · rw [he]
      exact buildRows_mono_nonneg_of_num _ _ e hpr _ principal _ hbound

/-- Witness for C7 at a concrete validated input: one annual period of a
100-unit loan at 50 %. -/
theorem balance_monotone_nonneg_witness :
    (0 : ℚ) < 100 ∧ (0 : ℚ) < 1 ∧ (0 : ℚ) ≤ 50 ∧ (0 : ℤ) ≤ 0 ∧
    ((∀ (i : ℕ) (h1 : i < witnessRowsA.length) (h2 : i + 1 < witnessRowsA.length) (qa qb : ℚ),
        (witnessRowsA.get ⟨i, h1⟩).balance = JsNum.num qa →
        (witnessRowsA.get ⟨i + 1, h2⟩).balance = JsNum.num qb → qb ≤ qa) ∧
      (∀ (i : ℕ) (h1 : i < witnessRowsA.length) (q : ℚ),
        (witnessRowsA.get ⟨i, h1⟩).balance = JsNum.num q → 0 ≤ q)) :=
  ⟨by norm_num, by norm_num, by norm_num, by norm_num,
    balance_monotone_nonneg 100 1 50 "annually" 0 ⟨2024, 0, 1⟩ witnessRowsA
      (by norm_num) (by norm_num) (by norm_num) (by norm_num) (by with_unfolding_all rfl)⟩

/-- Claim C8: in every schedule produced from validated input, each period
satisfies `interest + principal = payment` (exactly, in the exact-arithmetic
model, with `NaN = NaN` when the zero-rate `NaN` propagates), and the
`payment` field is identical across all periods of one schedule. -/
theorem payment_split_identity (principal tenure rate : ℚ) (frequency : String)
    (moratorium : ℤ) (startDate : JsDate) (rows : List ScheduleRow)
    (_hp : 0 < principal) (_ht : 0 < tenure) (_hr : 0 ≤ rate) (_hm : 0 ≤ moratorium)
    (hcalc : calculateSchedule principal tenure rate frequency moratorium startDate = some rows) :
    (∀ (i : ℕ) (h1 : i < rows.length),
        jsAdd (rows.get ⟨i, h1⟩).interest (rows.get ⟨i, h1⟩).principal
          = (rows.get ⟨i, h1⟩).payment) ∧
    (∀ (i j : ℕ) (h1 : i < rows.length) (h2 : j < rows.length),
        (rows.get ⟨i, h1⟩).payment = (rows.get ⟨j, h2⟩).payment) := by
  cases htab : periodsPerYearTable frequency with
  | none =>
    unfold calculateSchedule at hcalc
    rw [htab] at hcalc
    simp at hcalc
  | some ppy =>
    rw [calculateSchedule_eq_some _ _ _ _ _ _ _ htab] at hcalc
    injection hcalc with hcalc
    subst hcalc
    cases hemi : jsDiv
        (jsMul (JsNum.num (principal * (rate / 100 / (ppy : ℚ))))
          (jsPow (1 + rate / 100 / (ppy : ℚ)) (tenure * ppy)))
        (jsSub (jsPow (1 + rate / 100 / (ppy : ℚ)) (tenure * ppy)) (JsNum.num 1)) with
    | nan =>
      constructor
      · intro i h1
        rw [buildRows_get_principal, buildRows_get_payment]
        simp
      · intro i j h1 h2
        rw [buildRows_get_payment, buildRows_get_payment]
    | num e =>
      constructor
      · intro i h1
        rw [buildRows_get_principal, buildRows_get_payment, buildRows_get_interest]
        simp [jsAdd, jsSub, add_sub_cancel]
      · intro i j h1 h2
        rw [buildRows_get_payment, buildRows_get_payment]

/-- Witness for C8 at a concrete validated input: one annual period of a
200-unit loan at 100 %. -/
theorem payment_split_identity_witness :
    (0 : ℚ) < 200 ∧ (0 : ℚ) < 1 ∧ (0 : ℚ) ≤ 100 ∧ (0 : ℤ) ≤ 0 ∧
    ((∀ (i : ℕ) (h1 : i < witnessRowsB.length),
        jsAdd (witnessRowsB.get ⟨i, h1⟩).interest (witnessRowsB.get ⟨i, h1⟩).principal
          = (witnessRowsB.get ⟨i, h1⟩).payment) ∧
      (∀ (i j : ℕ) (h1 : i < witnessRowsB.length) (h2 : j < witnessRowsB.length),
        (witnessRowsB.get ⟨i, h1⟩).payment = (witnessRowsB.get ⟨j, h2⟩).payment)) :=
  ⟨by norm_num, by norm_num, by norm_num, by norm_num,
    payment_split_identity 200 1 100 "annually" 0 ⟨2024, 0, 1⟩ witnessRowsB
      (by norm_num) (by norm_num) (by norm_num) (by norm_num) (by with_unfolding_all rfl)⟩

/-- Claim C1 (code evaluation at the failing input): with principal 12000,
rate 0, tenure 1 year, monthly frequency, `calculateSchedule` computes
`emi = (12000·0·1)/(1−1) = 0/0 = NaN` and emits 12 periods whose `payment`
(and `principal`) are `NaN`; the first period's `interest` is still
`12000 · 0 = 0`.  The claim's linear fallback `payment = 1000` is absent
from the code. -/
theorem zeroRate_schedule_payments_nan :
    (calculateSchedule 12000 1 0 "monthly" 0 ⟨2024, 0, 1⟩).map
        (fun rows => rows.map ScheduleRow.payment)
      = some (List.replicate 12 JsNum.nan) ∧
    (calculateSchedule 12000 1 0 "monthly" 0 ⟨2024, 0, 1⟩).map
        (fun rows => rows.head?.map (fun row => (row.interest, row.principal)))
      = some (some (JsNum.num 0, JsNum.nan)) ∧
    JsNum.nan ≠ JsNum.num 1000 :=
  ⟨by with_unfolding_all rfl, by with_unfolding_all rfl, by decide⟩

/-- Claim C2 counterexample: the input principal 1000, tenure 1.5 years,
rate 5 %, annual frequency, moratorium 0 passes validation, yet the schedule
has 2 periods while the claim predicts `tenureYears × periodsPerYear =
1.5 × 1 = 1.5` periods — no length satisfies that, so the claim fails. -/
theorem fractional_tenure_period_count_counterexample :
    validateForm ⟨JsNum.num 1000, JsNum.num (3 / 2), JsNum.num 5, JsNum.num 0⟩ = true ∧
    (calculateSchedule 1000 (3 / 2) 5 "annually" 0 ⟨2024, 0, 1⟩).map List.length = some 2 ∧
    ¬ ((2 : ℚ) = (3 / 2) * 1) :=
  ⟨by with_unfolding_all rfl, by with_unfolding_all rfl, by norm_num⟩

/-- Claim C2 (amended): the `periodsPerYear` table maps the four recognized
frequencies to 12, 4, 2, 1, and for every input the schedule (when produced)
has exactly `⌈tenureYears × periodsPerYear⌉` periods — which equals
`tenureYears × periodsPerYear` whenever that product is an integer, in
particular for every whole-year tenure. -/
theorem schedule_length_eq_ceil_totalPeriods :
    periodsPerYearTable "monthly" = some 12 ∧
    periodsPerYearTable "quarterly" = some 4 ∧
    periodsPerYearTable "semi-annually" = some 2 ∧
    periodsPerYearTable "annually" = some 1 ∧
    ∀ (principal tenure rate : ℚ) (frequency : String) (moratorium : ℤ) (startDate : JsDate),
      (calculateSchedule principal tenure rate frequency moratorium startDate).map List.length
        = (periodsPerYearTable frequency).map
            (fun (ppy : ℕ) => Int.toNat ⌈tenure * (ppy : ℚ)⌉) := by
  refine ⟨rfl, rfl, rfl, rfl, ?_⟩
  intro principal tenure rate frequency moratorium startDate
  cases htab : periodsPerYearTable frequency with
  | none =>
    unfold calculateSchedule
    rw [htab]
    rfl
  | some ppy =>
    rw [calculateSchedule_eq_some _ _ _ _ _ _ _ htab]
    simp [htab, buildRows_length]

/-- Claim C3 (code evaluation at the failing input): starting the schedule at
2024-01-31 with monthly frequency, the code's `setMonth(getMonth() + 1)`
turns Jan 31 into Feb 31 = Mar 2 (2024 is a leap year): the second period's
date lands in March (month index 2), skipping February entirely, so the
month stepping is not calendar-safe. -/
theorem jan31_monthly_increment_overflows :
    addMonthsJs 1 ⟨2024, 0, 31⟩ = ⟨2024, 2, 2⟩ ∧
    (calculateSchedule 1200 1 12 "monthly" 0 ⟨2024, 0, 31⟩).map
        (fun rows => (rows.map ScheduleRow.date).take 2)
      = some [⟨2024, 0, 31⟩, ⟨2024, 2, 2⟩] :=
  ⟨by with_unfolding_all rfl, by with_unfolding_all rfl⟩

/-- Claim C5 (code evaluation at the failing input): at rate 0 (principal
24000, tenure 2 years, monthly) the final period's `balance` is `NaN`, not 0,
and the sum of the `principal` components is `NaN`, not the original
principal: the unguarded zero-rate EMI breaks full amortization. -/
theorem zeroRate_final_balance_nan :
    (calculateSchedule 24000 2 0 "monthly" 0 ⟨2024, 0, 1⟩).map
        (fun rows => rows.getLast?.map ScheduleRow.balance)
      = some (some JsNum.nan) ∧
    (calculateSchedule 24000 2 0 "monthly" 0 ⟨2024, 0, 1⟩).map
        (fun rows => rows.foldl (fun acc row => jsAdd acc row.principal) (JsNum.num 0))
      = some JsNum.nan ∧
    JsNum.nan ≠ JsNum.num 0 ∧ JsNum.nan ≠ JsNum.num 24000 :=
  ⟨by with_unfolding_all rfl, by with_unfolding_all rfl, by decide, by decide⟩

/-- Claim C9 counterexample: for the accepted input (principal 1000,
tenure 1, rate 5, moratorium 0) with the unrecognized frequency `"weekly"`,
the component's only error channel (`ValidationErrors`) stays empty and
`calculateSchedule` returns no schedule at all: it silently produces no
result instead of failing with an error. -/
theorem unknown_frequency_silent_counterexample :
    validateForm ⟨JsNum.num 1000, JsNum.num 1, JsNum.num 5, JsNum.num 0⟩ = true ∧
    validateFormErrors ⟨JsNum.num 1000, JsNum.num 1, JsNum.num 5, JsNum.num 0⟩
      = ⟨none, none, none, none⟩ ∧
    calculateSchedule 1000 1 5 "weekly" 0 ⟨2024, 0, 1⟩ = none :=
  ⟨by with_unfolding_all rfl, by with_unfolding_all rfl, by with_unfolding_all rfl⟩

/-- Claim C9 (amended): a frequency outside the enumerated table makes the
engine abort immediately with no schedule — it does not default to some
frequency — but the abort is silent: no error value exists on this path. -/
theorem unknown_frequency_returns_none (principal tenure rate : ℚ) (moratorium : ℤ)
    (startDate : JsDate) (frequency : String)
    (h : periodsPerYearTable frequency = none) :
    calculateSchedule principal tenure rate frequency moratorium startDate = none := by
  unfold calculateSchedule
  rw [h]

/-- Witness for the amended C9 at the concrete frequency `"weekly"`. -/
theorem unknown_frequency_returns_none_witness :
    periodsPerYearTable "weekly" = none ∧
    calculateSchedule 1000 1 5 "weekly" 0 ⟨2024, 0, 1⟩ = none :=
  ⟨by rfl, unknown_frequency_returns_none 1000 1 5 0 ⟨2024, 0, 1⟩ "weekly" (by rfl)⟩

/-- Claim C10: `Number` of a non-numeric string is `NaN`, every validation
comparison against `NaN` is `false`, so a form whose principal converts to
`NaN` (with the other fields valid) gets no principal error and passes
validation, letting computation proceed on `NaN`. -/
theorem nan_input_passes_validation :
    (∀ x : JsNum, jsLe JsNum.nan x = false ∧ jsLt JsNum.nan x = false ∧
        jsLe x JsNum.nan = false ∧ jsLt x JsNum.nan = false) ∧
    validateFormErrors ⟨JsNum.nan, JsNum.num 1, JsNum.num 5, JsNum.num 0⟩
      = ⟨none, none, none, none⟩ ∧
    validateForm ⟨JsNum.nan, JsNum.num 1, JsNum.num 5, JsNum.num 0⟩ = true :=
  ⟨fun x => by cases x <;> simp [jsLe, jsLt],
    by with_unfolding_all rfl, by with_unfolding_all rfl⟩

theorem jsLe_zero_iff (x : JsNum) :
    jsLe x (JsNum.num 0) = true ↔ ∃ q, x = JsNum.num q ∧ q ≤ 0 := by
  cases x with
  | nan => simp [jsLe]
  | num q => simp [jsLe]

theorem jsLt_zero_iff (x : JsNum) :
    jsLt x (JsNum.num 0) = true ↔ ∃ q, x = JsNum.num q ∧ q < 0 := by
  cases x with
  | nan => simp [jsLt]
  | num q => simp [jsLt]

/-- Claim C4: `validateForm` produces an error entry for the principal field
exactly when the converted principal is a number ≤ 0, for the tenure field
exactly when tenure ≤ 0, for the rate field exactly when rate < 0, and for
the moratorium field exactly when moratorium < 0 — each field independently,
so simultaneous invalid fields each get their own entry — and validation
succeeds exactly when the error mapping is empty.  (A `NaN` field compares
false everywhere and thus gets no entry; that acceptance gap is claim C10.) -/
theorem validateForm_field_errors_iff (data : FormData) :
    ((validateFormErrors data).principal ≠ none ↔ ∃ q, data.principal = JsNum.num q ∧ q ≤ 0) ∧
    ((validateFormErrors data).tenure ≠ none ↔ ∃ q, data.tenure = JsNum.num q ∧ q ≤ 0) ∧
    ((validateFormErrors data).rate ≠ none ↔ ∃ q, data.rate = JsNum.num q ∧ q < 0) ∧
    ((validateFormErrors data).moratorium ≠ none ↔ ∃ q, data.moratorium = JsNum.num q ∧ q < 0) ∧
    (validateForm data = true ↔ validateFormErrors data = ⟨none, none, none, none⟩) := by
  rcases data with ⟨p, t, r, m⟩
  refine ⟨?_, ?_, ?_, ?_, ?_⟩
  · rw [← jsLe_zero_iff]
    simp only [validateFormErrors]
    cases jsLe p (JsNum.num 0) <;> simp
  · rw [← jsLe_zero_iff]
    simp only [validateFormErrors]
    cases jsLe t (JsNum.num 0) <;> simp
  · rw [← jsLt_zero_iff]
    simp only [validateFormErrors]
    cases jsLt r (JsNum.num 0) <;> simp
  · rw [← jsLt_zero_iff]
    simp only [validateFormErrors]
    cases jsLt m (JsNum.num 0) <;> simp
  · simp only [validateForm, errorKeyCount, validateFormErrors, beq_iff_eq,
      ValidationErrors.mk.injEq]
    by_cases h1 : jsLe p (JsNum.num 0) = true <;>
      by_cases h2 : jsLe t (JsNum.num 0) = true <;>
        by_cases h3 : jsLt r (JsNum.num 0) = true <;>
          by_cases h4 : jsLt m (JsNum.num 0) = true <;>
            simp [h1, h2, h3, h4]

/-! ### Calendar lemmas for the moratorium frame property -/

theorem daysInMonth_ge_28 (y m : ℤ) : 28 ≤ daysInMonth y m := by
  unfold daysInMonth
  split_ifs <;> norm_num

theorem addMonthsJs_clean (k : ℤ) (d : JsDate) (hday : d.day ≤ 28) :
    addMonthsJs k d = cleanShift k d := by
  simp only [addMonthsJs, setMonthNorm, cleanShift]
  rw [if_pos (hday.trans (daysInMonth_ge_28 _ _))]

theorem cleanShift_comp (a b : ℤ) (d : JsDate) :
    cleanShift a (cleanShift b d) = cleanShift (a + b) d := by
  simp only [cleanShift, JsDate.mk.injEq]
  refine ⟨?_, ?_, trivial⟩ <;> omega

theorem cleanShift_month_nonneg (k : ℤ) (d : JsDate) : 0 ≤ (cleanShift k d).month :=
  Int.emod_nonneg _ (by norm_num)

theorem cleanShift_month_lt (k : ℤ) (d : JsDate) : (cleanShift k d).month < 12 :=
  Int.emod_lt_of_pos _ (by norm_num)

theorem cleanShift_day (k : ℤ) (d : JsDate) : (cleanShift k d).day = d.day := rfl

theorem setFullYearAdd1_clean (d : JsDate) (_hm0 : 0 ≤ d.month) (_hm12 : d.month < 12)
    (hday : d.day ≤ 28) : setFullYearAdd1 d = cleanShift 12 d := by
  simp only [setFullYearAdd1, setMonthNorm, cleanShift]
  rw [if_pos (hday.trans (daysInMonth_ge_28 _ _))]
  simp only [JsDate.mk.injEq]
  refine ⟨?_, ?_, trivial⟩ <;> omega

theorem advanceDate_clean (f : String) (d : JsDate) (hm0 : 0 ≤ d.month) (hm12 : d.month < 12)
    (hday : d.day ≤ 28) : advanceDate f d = cleanShift (advStep f) d := by
  unfold advanceDate advStep
  split_ifs <;>
    first
      | exact addMonthsJs_clean _ _ hday
      | exact setFullYearAdd1_clean d hm0 hm12 hday

theorem buildRows_map_numerics (f : String) (r : ℚ) (e : JsNum) :
    ∀ (n : ℕ) (b : JsNum) (d1 d2 : JsDate),
      (buildRows n f r e b d1).map rowNumerics = (buildRows n f r e b d2).map rowNumerics := by
  intro n
  induction n with
  | zero => intro b d1 d2; rfl
  | succ n ih =>
    intro b d1 d2
    simp only [buildRows, List.map_cons]
    exact congrArg (List.cons _) (ih _ _ _)

theorem buildRows_map_date (f : String) (r : ℚ) :
    ∀ (n : ℕ) (e b : JsNum) (d : JsDate),
      (buildRows n f r e b d).map ScheduleRow.date = datesFrom n f d := by
  intro n
  induction n with
  | zero => intro e b d; rfl
  | succ n ih =>
    intro e b d
    simp only [buildRows, List.map_cons, datesFrom]
    exact congrArg (List.cons d) (ih _ _ _)

theorem datesFrom_shift (f : String) :
    ∀ (n : ℕ) (d : JsDate) (k : ℤ), 0 ≤ d.month → d.month < 12 → d.day ≤ 28 →
      datesFrom n f (cleanShift k d) = (datesFrom n f d).map (cleanShift k) := by
  intro n
  induction n with
  | zero => intro d k hm0 hm12 hday; rfl
  | succ n ih =>
    intro d k hm0 hm12 hday
    simp only [datesFrom, List.map_cons]
    refine congrArg (List.cons _) ?_
    rw [advanceDate_clean f (cleanShift k d) (cleanShift_month_nonneg k d)
        (cleanShift_month_lt k d) (by rw [cleanShift_day]; exact hday),
      advanceDate_clean f d hm0 hm12 hday, cleanShift_comp,
      show advStep f + k = k + advStep f from add_comm _ _, ← cleanShift_comp]
    exact ih (cleanShift (advStep f) d) k (cleanShift_month_nonneg _ _)
      (cleanShift_month_lt _ _) (by rw [cleanShift_day]; exact hday)

theorem datesFrom_mem_day (f : String) :
    ∀ (n : ℕ) (d : JsDate), 0 ≤ d.month → d.month < 12 → d.day ≤ 28 →
      ∀ dt ∈ datesFrom n f d, dt.day ≤ 28 := by
  intro n
  induction n with
  | zero => intro d _ _ _ dt hdt; simp [datesFrom] at hdt
  | succ n ih =>
    intro d hm0 hm12 hday dt hdt
    rcases List.mem_cons.mp hdt with h | h
    · subst h; exact hday
    · rw [advanceDate_clean f d hm0 hm12 hday] at h
      exact ih (cleanShift (advStep f) d) (cleanShift_month_nonneg _ _)
        (cleanShift_month_lt _ _) (by rw [cleanShift_day]; exact hday) dt h

/-- Claim C6 (amended): two runs that differ only in the moratorium agree on
every numeric field of every period (moratorium never enters the numeric
computation); when the start date's day-of-month is at most 28 — so that the
`setMonth` idiom cannot overflow a month boundary — the dates of the two
schedules are shifts of one another by the moratorium difference; and
concretely, moratorium 3 from 2024-01-01 puts the first period at 2024-04-01
(month index 3 = April). -/
theorem moratorium_affects_only_dates :
    (∀ (principal tenure rate : ℚ) (frequency : String) (m1 m2 : ℤ) (startDate : JsDate),
        (calculateSchedule principal tenure rate frequency m1 startDate).map
            (List.map rowNumerics)
          = (calculateSchedule principal tenure rate frequency m2 startDate).map
              (List.map rowNumerics)) ∧
    (∀ (principal tenure rate : ℚ) (frequency : String) (m1 m2 : ℤ) (startDate : JsDate),
        0 ≤ startDate.month → startDate.month < 12 → startDate.day ≤ 28 →
        (calculateSchedule principal tenure rate frequency m2 startDate).map
            (fun rows => rows.map ScheduleRow.date)
          = (calculateSchedule principal tenure rate frequency m1 startDate).map
              (fun rows => (rows.map ScheduleRow.date).map (addMonthsJs (m2 - m1)))) ∧
    (calculateSchedule 100000 1 12 "monthly" 3 ⟨2024, 0, 1⟩).map
        (fun rows => rows.head?.map ScheduleRow.date) = some (some ⟨2024, 3, 1⟩) := by
  refine ⟨?_, ?_, by with_unfolding_all rfl⟩
  · intro p t r f m1 m2 d
    cases htab : periodsPerYearTable f with
    | none =>
      unfold calculateSchedule
      rw [htab]
    | some ppy =>
      rw [calculateSchedule_eq_some p t r f m1 d ppy htab,
        calculateSchedule_eq_some p t r f m2 d ppy htab]
      exact congrArg some (buildRows_map_numerics _ _ _ _ _ _ _)
  · intro p t r f m1 m2 d hm0 hm12 hday
    cases htab : periodsPerYearTable f with
    | none =>
      unfold calculateSchedule
      rw [htab]
      rfl
    | some ppy =>
      rw [calculateSchedule_eq_some p t r f m2 d ppy htab,
        calculateSchedule_eq_some p t r f m1 d ppy htab]
      simp only [Option.map_some']
      refine congrArg some ?_
      rw [buildRows_map_date, buildRows_map_date, addMonthsJs_clean m2 d hday,
        addMonthsJs_clean m1 d hday]
      have hstart : cleanShift m2 d = cleanShift (m2 - m1) (cleanShift m1 d) := by
        rw [cleanShift_comp, sub_add_cancel]
      rw [hstart, datesFrom_shift f _ (cleanShift m1 d) (m2 - m1)
        (cleanShift_month_nonneg _ _) (cleanShift_month_lt _ _)
        (by rw [cleanShift_day]; exact hday)]
      apply List.map_congr_left
      intro dt hdt
      have hd28 : dt.day ≤ 28 := datesFrom_mem_day f _ (cleanShift m1 d)
        (cleanShift_month_nonneg _ _) (cleanShift_month_lt _ _)
        (by rw [cleanShift_day]; exact hday) dt hdt
      exact (addMonthsJs_clean (m2 - m1) dt hd28).symm

/-- Witness for C6 at a concrete input: moratoria 0 and 2 from 2024-01-15
(day 15 ≤ 28), annual frequency. -/
theorem moratorium_affects_only_dates_witness :
    (calculateSchedule 100 1 50 "annually" 0 ⟨2024, 0, 15⟩).map (List.map rowNumerics)
      = (calculateSchedule 100 1 50 "annually" 2 ⟨2024, 0, 15⟩).map (List.map rowNumerics) ∧
    (calculateSchedule 100 1 50 "annually" 2 ⟨2024, 0, 15⟩).map
        (fun rows => rows.map ScheduleRow.date)
      = (calculateSchedule 100 1 50 "annually" 0 ⟨2024, 0, 15⟩).map
          (fun rows => (rows.map ScheduleRow.date).map (addMonthsJs (2 - 0))) :=
  ⟨moratorium_affects_only_dates.1 100 1 50 "annually" 0 2 ⟨2024, 0, 15⟩,
    moratorium_affects_only_dates.2.1 100 1 50 "annually" 0 2 ⟨2024, 0, 15⟩
      (by norm_num) (by norm_num) (by norm_num)⟩

/-- Claim C6 counterexample: from start date 2024-01-31 (monthly), the
schedule with moratorium 2 starts at Mar 31, while shifting the
moratorium-1 schedule's first date (Mar 2, already overflowed from Feb 31)
by the moratorium difference of one month gives Apr 2: the dates of the two
runs are not shifts of one another, because `setMonth` overflow depends on
where the moratorium lands. -/
theorem moratorium_shift_day31_counterexample :
    (calculateSchedule 1200 1 12 "monthly" 2 ⟨2024, 0, 31⟩).map
        (fun rows => rows.head?.map ScheduleRow.date)
      = some (some ⟨2024, 2, 31⟩) ∧
    (calculateSchedule 1200 1 12 "monthly" 1 ⟨2024, 0, 31⟩).map
        (fun rows => rows.head?.map (fun row => addMonthsJs (2 - 1) row.date))
      = some (some ⟨2024, 3, 2⟩) ∧
    (⟨2024, 2, 31⟩ : JsDate) ≠ ⟨2024, 3, 2⟩ :=
  ⟨by with_unfolding_all rfl, by with_unfolding_all rfl, by decide⟩
